import Mathlib

/-!
Shallow embedding of the aiorm request manager (src/aiorm/init module) and
proofs about its rate limiter, penalty box, retry loop and lifecycle.
Times are modelled as rationals standing for time.monotonic() readings.
-/

namespace Aiorm

/-- Exception values that can flow through the request manager.
clientResponseError mirrors aiohttp.ClientResponseError carrying the HTTP
status; nameError mirrors a Python NameError over an unbound global name;
typeError mirrors a Python TypeError; otherException stands for every other
exception kind (network-layer transport errors, timeouts, cancellation,
decode failures, and so on). -/
inductive PyExc where
  | clientResponseError (status : Nat)
  | nameError (missing : String)
  | typeError
  | otherException
  | retriesExceededError
  | maxRequestsExceededError
  deriving DecidableEq, Repr

/-- Statuses retried by the default predicate (source line 30). -/
def retry_for_statuses : List Nat := [500, 502, 503, 504, 599]

/-- Embedding of default_retry (source lines 21-35): it returns True only for
an aiohttp.ClientResponseError whose status is in retry_for_statuses, and
False for every other exception. -/
def default_retry (exception : PyExc) : Bool :=
  match exception with
  | PyExc.clientResponseError status =>
      if status ∈ retry_for_statuses then true else false
  | _ => false

/-- Input to the Retry-After parsing method, abstracting a header string by
how the Python int() builtin sees it: intString n is a string that int()
parses to the integer n (such as a decimal numeral, possibly signed), and
nonIntString s is any other string (an HTTP-date, or garbage). -/
inductive RetryAfterValue where
  | intString (n : Int)
  | nonIntString (s : String)
  deriving DecidableEq, Repr

/-- Embedding of the private Retry-After parsing method of RequestManager
(source lines 296-316), as written. An int() success returns the parsed
integer unchanged, with no clamping. On ValueError, control falls to the
statement calling parser.parse on the value, but the module never imports the
name parser (nor datetime, nor timezone), so evaluating that name raises
NameError; the following except clause names parser.ParserError, whose
evaluation hits the same unbound name, so the NameError escapes to the
caller and the final fallback return line is unreachable for such inputs. -/
def parse_retry_after : RetryAfterValue → Except PyExc Int
  | RetryAfterValue.intString n => Except.ok n
  | RetryAfterValue.nonIntString _ => Except.error (PyExc.nameError "parser")

/-- Value of the attribute max_requests as seen by the token-acquisition
method: the constructor never assigns it, so on an unconfigured manager the
attribute resolves through the dynamic-attribute fallback (source lines
318-323), which returns, rather than raises, an AttributeError object: a
truthy value that compares unequal to every integer. -/
inductive MaxRequestsAttr where
  | unset
  | set (m : Nat)
  deriving DecidableEq, Repr

/-- Embedding of the ceiling check at the top of the token-acquisition method
(source lines 221-223). With the ceiling configured (and nonzero, for Python
truthiness) and reached, the raise statement executes, but the name
MaximumRequestsExceeded is not defined anywhere in the module (the defined
class at line 18 is MaxRequestsExceededError), so what is actually raised is
a NameError over that name; the message f-string also references the
undefined name self_requests. With the attribute unset, the AttributeError
object produced by the fallback is truthy but unequal to the request
counter, so no raise happens. -/
def get_token_ceiling (max_requests : MaxRequestsAttr) (requests : Nat) :
    Except PyExc Unit :=
  match max_requests with
  | MaxRequestsAttr.unset => Except.ok ()
  | MaxRequestsAttr.set m =>
      if m ≠ 0 ∧ requests = m then
        Except.error (PyExc.nameError "MaximumRequestsExceeded")
      else Except.ok ()

/-- Class constant rate_limit_min_burst_size (source line 62). -/
def rate_limit_min_burst_size : Nat := 2

/-- Maxsize of the token queue created by the constructor (source line 92):
asyncio.Queue with int of rate_limit_burst as maxsize. The class constant
rate_limit_min_burst_size is declared but never consulted by the
constructor, so the configured burst is used exactly as given. -/
def init_token_queue_maxsize (rate_limit_burst : Nat) : Nat := rate_limit_burst

/-- What one iteration of the retry loop of RequestManager.request observes
from the outside world: either a response with a status, an optional
Retry-After header value and a body, or an exception raised before a
response status could be examined (token acquisition, transport send,
reading the body text, or decoding all surface here). -/
inductive AttemptOutcome where
  | response (status : Nat) (retryAfter : Option RetryAfterValue)
  | exc (e : PyExc)
  deriving DecidableEq, Repr

/-- Result of classifying one attempt inside the try block. -/
inductive AttemptStep where
  | success
  | throttled (d : Int)
  | raised (e : PyExc)
  deriving DecidableEq, Repr

/-- Classification performed by the try block of RequestManager.request
(source lines 264-292). Any exception raised while acquiring a token,
sending, or decoding surfaces as raised. Otherwise the status is examined:
on 429 the Retry-After header is read (when the header is absent, the
fallback default resolves through the dynamic-attribute fallback to an
AttributeError object, and int() of that object raises TypeError, which the
ValueError handler does not catch) and parsed; a parse success throttles and
the loop continues, a parse failure raises. Any other status at least 400 is
raised by raise_for_status as a ClientResponseError; other statuses return
the decoded body successfully. -/
def classify_attempt : AttemptOutcome → AttemptStep
  | AttemptOutcome.exc e => AttemptStep.raised e
  | AttemptOutcome.response status retryAfter =>
      if status = 429 then
        match retryAfter with
        | some v =>
            match parse_retry_after v with
            | Except.ok d => AttemptStep.throttled d
            | Except.error e => AttemptStep.raised e
        | none => AttemptStep.raised PyExc.typeError
      else if 400 ≤ status then
        AttemptStep.raised (PyExc.clientResponseError status)
      else AttemptStep.success

/-- The while loop of RequestManager.request (source lines 259-294), as a
function of the per-attempt outcomes: outcome k is what the attempt with
0-based index k observes. The first numeric argument is the remaining loop
budget (retries minus attempts so far), the second the number of iterations
already performed; each iteration also bumps the manager-wide request
counter. Returns the total number of iterations performed, paired with
either a success or the exception ultimately raised: a throttled attempt
continues the loop, a raised exception continues only when the retry
predicate accepts it and is re-raised unchanged otherwise, and an exhausted
budget raises RetriesExceededError. -/
def request_loop (should_retry : PyExc → Bool) (outcome : Nat → AttemptOutcome) :
    Nat → Nat → Nat × Except PyExc Unit
  | 0, attempts => (attempts, Except.error PyExc.retriesExceededError)
  | Nat.succ budget, attempts =>
      match classify_attempt (outcome attempts) with
      | AttemptStep.success => (attempts + 1, Except.ok ())
      | AttemptStep.throttled _ => request_loop should_retry outcome budget (attempts + 1)
      | AttemptStep.raised e =>
          if should_retry e then request_loop should_retry outcome budget (attempts + 1)
          else (attempts + 1, Except.error e)

/-- RequestManager.request with the configured retries bound, starting from
zero performed attempts. -/
def request (should_retry : PyExc → Bool) (outcome : Nat → AttemptOutcome)
    (retries : Nat) : Nat × Except PyExc Unit :=
  request_loop should_retry outcome retries 0

/-- Attempt outcomes that are responses with an error status classified
retryable by the retry predicate (and not the throttling status 429). -/
def retryable_status_outcome (should_retry : PyExc → Bool) (o : AttemptOutcome) : Prop :=
  ∃ st ra, o = AttemptOutcome.response st ra ∧ 400 ≤ st ∧ st ≠ 429 ∧
    should_retry (PyExc.clientResponseError st) = true

/-- Coordination state shared between the refill task, the throttling handler
inside RequestManager.request, and the token-acquisition method. The field
now is the current monotonic time, last_check_end the refill loop's stored
timestamp, qsize the length of the token queue, maxsize its bound,
retry_after_time the penalty deadline and event_set the retry_after_event. -/
structure RMState where
  now : ℚ
  last_check_end : ℚ
  qsize : Nat
  maxsize : Nat
  retry_after_time : Option ℚ
  event_set : Bool
  deriving DecidableEq, Repr

/-- Python truthiness of the retry_after_time field: None and zero are falsy. -/
def truthyTime : Option ℚ → Bool
  | none => false
  | some t => decide (t ≠ 0)

/-- asyncio.Queue.full: False when maxsize is not positive (such a queue is
unbounded), else whether qsize has reached maxsize. -/
def queue_full (maxsize qsize : Nat) : Bool :=
  decide (0 < maxsize) && decide (maxsize ≤ qsize)

/-- Python int() on a rational quantity: truncation toward zero. -/
def pyInt (q : ℚ) : Int := if 0 ≤ q then ⌊q⌋ else -⌊-q⌋

/-- Penalty-box section of one refill-loop iteration (source lines 172-180),
woken at time now: when the deadline is truthy and has passed, the gate
event is set and the deadline cleared; when truthy and still in the future,
the task merely sleeps until the deadline, changing nothing else during this
iteration. -/
def penalty_check (s : RMState) (now : ℚ) : RMState :=
  match s.retry_after_time with
  | some t =>
      if t ≠ 0 then
        if t ≤ now then
          { s with event_set := true, retry_after_time := none }
        else s
      else s
  | none => s

/-- Refill section of one refill-loop iteration (source lines 183-197) at
wake time now: guarded by the queue not being full and the (possibly just
cleared) deadline not being truthy, the elapsed time since last_check_end is
converted to rate times elapsed tokens, capped at the remaining headroom,
truncated by int(), and that many tokens are put into the queue; a
nonpositive count adds nothing since a Python range over it is empty. -/
def refill (rate : ℚ) (s : RMState) (now : ℚ) : RMState :=
  if queue_full s.maxsize s.qsize = false ∧ truthyTime s.retry_after_time = false then
    { s with qsize := s.qsize +
        (pyInt (min (rate * (now - s.last_check_end))
          (((s.maxsize : Int) - (s.qsize : Int) : Int) : ℚ))).toNat }
  else s

/-- One full iteration of the while loop inside the refill task (source lines
167-203), woken at time now: penalty-box check, then refill, then the stored
timestamp is set to this wake time. -/
def rate_manager_tick (rate : ℚ) (s : RMState) (now : ℚ) : RMState :=
  let s2 := refill rate (penalty_check s now) now
  { s2 with last_check_end := now, now := now }

/-- The throttling branch of RequestManager.request (source lines 276-281),
run at time now with parsed delay d: the deadline becomes the current
monotonic time plus d and the gate event is cleared. -/
def handle_429 (s : RMState) (now d : ℚ) : RMState :=
  { s with retry_after_time := some (now + d), event_set := false, now := now }

/-- A completed token acquisition (source lines 225-232): the caller passed
the gate event and the queue removed one token. -/
def consume_token (s : RMState) (now : ℚ) : RMState :=
  { s with qsize := s.qsize - 1, now := now }

/-- State right after the refill task's initial burst fill (source lines
163-164): the queue, created empty, receives exactly maxsize tokens; the
gate event starts set (source line 85) and no deadline is pending. -/
def init_state (maxsize : Nat) (t0 : ℚ) : RMState :=
  { now := t0, last_check_end := t0, qsize := maxsize, maxsize := maxsize,
    retry_after_time := none, event_set := true }

/-- Interleaving of the three actors that touch the shared coordination
state: one refill-task iteration, one throttling handler inside some request
task, and one token acquisition. Each fires at a time no earlier than the
state clock. A token acquisition completes only when the gate event is set
and a token is present; otherwise the acquisition stays suspended. -/
inductive Step (rate : ℚ) : RMState → RMState → Prop where
  | tick (s : RMState) (now : ℚ) (h : s.now ≤ now) :
      Step rate s (rate_manager_tick rate s now)
  | handle429 (s : RMState) (now d : ℚ) (h : s.now ≤ now) :
      Step rate s (handle_429 s now d)
  | get_token (s : RMState) (now : ℚ) (h : s.now ≤ now)
      (hev : s.event_set = true) (hq : 1 ≤ s.qsize) :
      Step rate s (consume_token s now)

/-- Steps that exclude further throttling responses: used to state what one
throttling response alone guarantees about subsequent acquisitions. -/
inductive QuietStep (rate : ℚ) : RMState → RMState → Prop where
  | tick (s : RMState) (now : ℚ) (h : s.now ≤ now) :
      QuietStep rate s (rate_manager_tick rate s now)
  | get_token (s : RMState) (now : ℚ) (h : s.now ≤ now)
      (hev : s.event_set = true) (hq : 1 ≤ s.qsize) :
      QuietStep rate s (consume_token s now)

/-- Reachability under the full interleaving. -/
def Reachable (rate : ℚ) : RMState → RMState → Prop :=
  Relation.ReflTransGen (Step rate)

/-- Reachability with no intervening throttling response. -/
def QuietReachable (rate : ℚ) : RMState → RMState → Prop :=
  Relation.ReflTransGen (QuietStep rate)

/-- First state of the overwrite trace: a throttling response with a parsed
delay of 100 handled at time 1, from a freshly initialized bucket of
capacity 3. -/
def c1_state_a : RMState := handle_429 (init_state 3 0) 1 100

/-- Second state: a later throttling response with parsed delay 1 handled at
time 2 overwrites the pending deadline (last caller wins). -/
def c1_state_b : RMState := handle_429 c1_state_a 2 1

/-- Third state: a refill-task iteration at time 3 observes the overwritten
deadline expired and sets the gate event. -/
def c1_state_c : RMState := rate_manager_tick 1 c1_state_b 3

/-- Fourth state: a token acquisition completes at time 3, long before the
first response's deadline of 101. -/
def c1_state_d : RMState := consume_token c1_state_c 3

/-- Lifecycle state manipulated by close (source lines 114-131): the private
session is either None or a session object whose closed flag is the payload.
Rate limiting is taken as enabled, so the refill task exists. -/
structure MgrLifecycle where
  session : Option Bool
  deriving DecidableEq, Repr

/-- Observable teardown side effects of one close call. -/
structure CloseEffects where
  task_cancel_called : Bool
  session_close_called : Bool
  deriving DecidableEq, Repr

/-- Embedding of close (source lines 114-131). The guard at line 124
compares the bound refill method, not the task, with None, and a bound
method is never None, so a cancel of the refill task is attempted on every
call (cancelling a finished or already cancelled task is a harmless no-op).
The session close is attempted only when the session exists and its closed
flag is false, inside a bare try/except that swallows every error, and the
private session field is then set to None unconditionally. -/
def close (s : MgrLifecycle) : MgrLifecycle × CloseEffects :=
  let do_close :=
    match s.session with
    | some closed => !closed
    | none => false
  ({ session := none }, { task_cancel_called := true, session_close_called := do_close })

/-- C4: parse_retry_after maps the string for 120 to 120 seconds. However,
for an HTTP-date (a string int() rejects) the method raises NameError over
the unbound name parser instead of computing a clamped difference, and on
the integer path a negative numeral is returned unchanged, so the result is
not never-negative either. -/
theorem C4_parse_retry_after_behavior :
    parse_retry_after (RetryAfterValue.intString 120) = Except.ok 120 ∧
    parse_retry_after (RetryAfterValue.nonIntString "Wed, 21 Oct 2015 07:28:00 GMT")
      = Except.error (PyExc.nameError "parser") ∧
    parse_retry_after (RetryAfterValue.intString (-5)) = Except.ok (-5) :=
  ⟨rfl, rfl, rfl⟩

/-- C5: for a string that parses neither as an integer nor as an HTTP-date,
parse_retry_after does not return the configured default: it raises
NameError over the unbound name parser, so the parse failure propagates to
the caller as an exception. -/
theorem C5_parse_failure_raises :
    parse_retry_after (RetryAfterValue.nonIntString "garbage")
      = Except.error (PyExc.nameError "parser") := rfl

/-- C6: the constructor performs no clamping of the burst size, so a manager
constructed with burst 1 gets a token queue of maxsize 1, below the declared
(but never consulted) class minimum of 2. -/
theorem C6_no_minimum_burst_enforced :
    init_token_queue_maxsize 1 = 1 ∧
    init_token_queue_maxsize 1 < rate_limit_min_burst_size := ⟨rfl, by decide⟩

/-- C7: with a global ceiling of 5 configured and 5 requests already
dispatched, the ceiling check raises a NameError over the unbound name
MaximumRequestsExceeded, which is not the distinguished
MaxRequestsExceededError kind. -/
theorem C7_ceiling_raises_wrong_kind :
    get_token_ceiling (MaxRequestsAttr.set 5) 5
      = Except.error (PyExc.nameError "MaximumRequestsExceeded") ∧
    PyExc.nameError "MaximumRequestsExceeded" ≠ PyExc.maxRequestsExceededError :=
  ⟨rfl, by decide⟩

/-- C9: after a first close, a second close calls no session close again (the
session field is None after the first close) and again leaves the session
field None; the function is total, so no error is raised. -/
theorem C9_close_idempotent (s : MgrLifecycle) :
    (close (close s).1).2.session_close_called = false ∧
    (close (close s).1).1.session = none ∧
    (close s).1.session = none :=
  ⟨rfl, rfl, rfl⟩

/-- Witness for C9 at a manager holding an open session. -/
theorem C9_close_idempotent_witness :
    (close (close { session := some false }).1).2.session_close_called = false ∧
    (close (close { session := some false }).1).1.session = none ∧
    (close ({ session := some false } : MgrLifecycle)).1.session = none :=
  C9_close_idempotent { session := some false }

/-- C10: the default retry predicate answers false on every exception that is
not a ClientResponseError, and answers true exactly on ClientResponseError
values whose status lies in the fixed list 500, 502, 503, 504, 599. -/
theorem C10_default_retry_scope (e : PyExc) :
    ((∀ st, e ≠ PyExc.clientResponseError st) → default_retry e = false) ∧
    (default_retry e = true ↔
      ∃ st, e = PyExc.clientResponseError st ∧ st ∈ retry_for_statuses) := by
  constructor
  · intro h
    cases e with
    | clientResponseError st => exact absurd rfl (h st)
    | nameError m => rfl
    | typeError => rfl
    | otherException => rfl
    | retriesExceededError => rfl
    | maxRequestsExceededError => rfl
  · constructor
    · intro htrue
      cases e with
      | clientResponseError st =>
          refine ⟨st, rfl, ?_⟩
          by_contra hmem
          simp [default_retry, hmem] at htrue
      | nameError m => simp [default_retry] at htrue
      | typeError => simp [default_retry] at htrue
      | otherException => simp [default_retry] at htrue
      | retriesExceededError => simp [default_retry] at htrue
      | maxRequestsExceededError => simp [default_retry] at htrue
    · rintro ⟨st, rfl, hmem⟩
      simp [default_retry, hmem]

/-- Witness for C10 at a transport-level exception value. -/
theorem C10_default_retry_scope_witness :
    ((∀ st, PyExc.otherException ≠ PyExc.clientResponseError st) →
        default_retry PyExc.otherException = false) ∧
    (default_retry PyExc.otherException = true ↔
      ∃ st, PyExc.otherException = PyExc.clientResponseError st ∧
        st ∈ retry_for_statuses) :=
  C10_default_retry_scope PyExc.otherException

/-- If every remaining attempt observes a retryable error status, the loop
spends its whole budget and ends in RetriesExceededError. -/
theorem request_loop_exhausts (should_retry : PyExc → Bool)
    (outcome : Nat → AttemptOutcome) :
    ∀ b a, (∀ k, k < b → retryable_status_outcome should_retry (outcome (a + k))) →
      request_loop should_retry outcome b a
        = (a + b, Except.error PyExc.retriesExceededError) := by
  intro b
  induction b with
  | zero => intro a h; rfl
  | succ n ih =>
      intro a h
      obtain ⟨st, ra, ho, h400, h429, hsr⟩ := h 0 (Nat.succ_pos n)
      have ho' : outcome a = AttemptOutcome.response st ra := by simpa using ho
      have hclass : classify_attempt (outcome a)
          = AttemptStep.raised (PyExc.clientResponseError st) := by
        simp [classify_attempt, ho', h429, h400]
      have hrest : ∀ k, k < n →
          retryable_status_outcome should_retry (outcome (a + 1 + k)) := by
        intro k hk
        have := h (k + 1) (by omega)
        have harith : a + (k + 1) = a + 1 + k := by omega
        rwa [harith] at this
      have hrec := ih (a + 1) hrest
      have harith2 : a + 1 + n = a + (n + 1) := by omega
      simp [request_loop, hclass, hsr, hrec, harith2]

/-- C3: when every attempt up to the configured retries bound observes an
error status classified retryable by the retry predicate, request performs
exactly retries loop iterations (each bumping the request counter) and then
raises RetriesExceededError. -/
theorem C3_retryable_exhausts_budget (should_retry : PyExc → Bool)
    (outcome : Nat → AttemptOutcome) (retries : Nat)
    (h : ∀ k, k < retries → retryable_status_outcome should_retry (outcome k)) :
    request should_retry outcome retries
      = (retries, Except.error PyExc.retriesExceededError) := by
  have := request_loop_exhausts should_retry outcome retries 0 (by
    intro k hk
    simpa using h k hk)
  simpa [request] using this

/-- Witness for C3: three configured retries against a server that always
answers 500 under the default predicate give exactly three attempts and a
RetriesExceededError. -/
theorem C3_retryable_exhausts_budget_witness :
    request default_retry (fun _ => AttemptOutcome.response 500 none) 3
      = (3, Except.error PyExc.retriesExceededError) :=
  C3_retryable_exhausts_budget default_retry (fun _ => AttemptOutcome.response 500 none) 3
    (fun k hk => ⟨500, none, rfl, by decide, by decide, by decide⟩)

/-- C8: when the first attempt observes an error status that the retry
predicate classifies non-retryable, request re-raises that original
ClientResponseError immediately, after exactly one loop iteration. -/
theorem C8_nonretryable_propagates_once (should_retry : PyExc → Bool)
    (outcome : Nat → AttemptOutcome) (retries st : Nat) (ra : Option RetryAfterValue)
    (hr : 1 ≤ retries) (h0 : outcome 0 = AttemptOutcome.response st ra)
    (h400 : 400 ≤ st) (h429 : st ≠ 429)
    (hnr : should_retry (PyExc.clientResponseError st) = false) :
    request should_retry outcome retries
      = (1, Except.error (PyExc.clientResponseError st)) := by
  obtain ⟨b, rfl⟩ : ∃ b, retries = b + 1 := ⟨retries - 1, by omega⟩
  simp [request, request_loop, classify_attempt, h0, h429, h400, hnr]

/-- Witness for C8: a 404 on the first attempt under the default predicate
propagates unchanged with one attempt recorded. -/
theorem C8_nonretryable_propagates_once_witness :
    request default_retry (fun _ => AttemptOutcome.response 404 none) 3
      = (1, Except.error (PyExc.clientResponseError 404)) :=
  C8_nonretryable_propagates_once default_retry (fun _ => AttemptOutcome.response 404 none)
    3 404 none (by decide) rfl (by decide) (by decide) (by decide)

/-- Refill never changes the deadline. -/
theorem refill_retry_after_time (rate : ℚ) (s : RMState) (now : ℚ) :
    (refill rate s now).retry_after_time = s.retry_after_time := by
  unfold refill; split_ifs <;> rfl

/-- Refill never changes the gate event. -/
theorem refill_event_set (rate : ℚ) (s : RMState) (now : ℚ) :
    (refill rate s now).event_set = s.event_set := by
  unfold refill; split_ifs <;> rfl

/-- Refill never changes the queue bound. -/
theorem refill_maxsize (rate : ℚ) (s : RMState) (now : ℚ) :
    (refill rate s now).maxsize = s.maxsize := by
  unfold refill; split_ifs <;> rfl

/-- The truncated, headroom-capped token count never pushes the queue past
its bound. -/
theorem refill_add_le (tt : ℚ) (a b : Nat) (hab : a ≤ b) :
    a + (pyInt (min tt (((b : Int) - (a : Int) : Int) : ℚ))).toNat ≤ b := by
  set m : Int := (b : Int) - (a : Int) with hm
  have hm0 : 0 ≤ m := Int.sub_nonneg.mpr (by exact_mod_cast hab)
  have hple : pyInt (min tt ((m : ℚ))) ≤ m := by
    unfold pyInt
    split_ifs with hq
    · calc ⌊min tt ((m : ℚ))⌋ ≤ ⌊((m : ℚ))⌋ := Int.floor_le_floor (min_le_right _ _)
        _ = m := Int.floor_intCast m
    · push_neg at hq
      have h1 : (0 : ℚ) ≤ -(min tt ((m : ℚ))) := by linarith
      have h2 : 0 ≤ ⌊-(min tt ((m : ℚ)))⌋ := Int.floor_nonneg.mpr h1
      omega
  have htn : (pyInt (min tt ((m : ℚ)))).toNat ≤ m.toNat := Int.toNat_le_toNat hple
  omega

/-- Refill keeps the queue within its bound. -/
theorem refill_qsize_le (rate : ℚ) (s : RMState) (now : ℚ) (h : s.qsize ≤ s.maxsize) :
    (refill rate s now).qsize ≤ s.maxsize := by
  unfold refill
  split_ifs with hg
  · exact refill_add_le (rate * (now - s.last_check_end)) s.qsize s.maxsize h
  · exact h

/-- The penalty-box check never changes the queue length. -/
theorem penalty_check_qsize (s : RMState) (now : ℚ) :
    (penalty_check s now).qsize = s.qsize := by
  unfold penalty_check
  rcases s.retry_after_time with _ | t
  · rfl
  · dsimp only
    split_ifs <;> rfl

/-- The penalty-box check never changes the queue bound. -/
theorem penalty_check_maxsize (s : RMState) (now : ℚ) :
    (penalty_check s now).maxsize = s.maxsize := by
  unfold penalty_check
  rcases s.retry_after_time with _ | t
  · rfl
  · dsimp only
    split_ifs <;> rfl

/-- A pending deadline still in the future leaves the state unchanged during
the penalty-box check. -/
theorem penalty_check_not_expired {s : RMState} {T : ℚ} (now : ℚ)
    (hrat : s.retry_after_time = some T) (h : ¬ T ≤ now) :
    penalty_check s now = s := by
  unfold penalty_check
  rw [hrat]
  dsimp only
  split_ifs <;> rfl

/-- A deadline of exactly zero is falsy in Python, so the penalty-box check
skips it and the state is unchanged. -/
theorem penalty_check_zero {s : RMState} (now : ℚ)
    (hrat : s.retry_after_time = some 0) :
    penalty_check s now = s := by
  unfold penalty_check
  rw [hrat]
  simp

/-- An expired truthy deadline sets the gate event and clears the deadline. -/
theorem penalty_check_expired {s : RMState} {T : ℚ} (now : ℚ)
    (hrat : s.retry_after_time = some T) (hT : T ≠ 0) (h : T ≤ now) :
    penalty_check s now = { s with event_set := true, retry_after_time := none } := by
  unfold penalty_check
  rw [hrat]
  simp [hT, h]

/-- A refill-loop iteration leaves the clock at its wake time. -/
theorem tick_now (rate : ℚ) (s : RMState) (now : ℚ) :
    (rate_manager_tick rate s now).now = now := rfl

/-- The deadline after an iteration is whatever the penalty-box check left. -/
theorem tick_retry_after_time (rate : ℚ) (s : RMState) (now : ℚ) :
    (rate_manager_tick rate s now).retry_after_time
      = (penalty_check s now).retry_after_time :=
  refill_retry_after_time rate (penalty_check s now) now

/-- The gate event after an iteration is whatever the penalty-box check left. -/
theorem tick_event_set (rate : ℚ) (s : RMState) (now : ℚ) :
    (rate_manager_tick rate s now).event_set = (penalty_check s now).event_set :=
  refill_event_set rate (penalty_check s now) now

/-- An iteration never changes the queue bound. -/
theorem tick_maxsize (rate : ℚ) (s : RMState) (now : ℚ) :
    (rate_manager_tick rate s now).maxsize = s.maxsize := by
  calc (rate_manager_tick rate s now).maxsize
      = (refill rate (penalty_check s now) now).maxsize := rfl
    _ = (penalty_check s now).maxsize := refill_maxsize rate (penalty_check s now) now
    _ = s.maxsize := penalty_check_maxsize s now

/-- An iteration keeps the queue within its bound. -/
theorem tick_qsize_le (rate : ℚ) (s : RMState) (now : ℚ) (h : s.qsize ≤ s.maxsize) :
    (rate_manager_tick rate s now).qsize ≤ (rate_manager_tick rate s now).maxsize := by
  have hpq : (penalty_check s now).qsize = s.qsize := penalty_check_qsize s now
  have hpm : (penalty_check s now).maxsize = s.maxsize := penalty_check_maxsize s now
  have hb : (refill rate (penalty_check s now) now).qsize ≤ (penalty_check s now).maxsize :=
    refill_qsize_le rate (penalty_check s now) now (by rw [hpq, hpm]; exact h)
  calc (rate_manager_tick rate s now).qsize
      = (refill rate (penalty_check s now) now).qsize := rfl
    _ ≤ (penalty_check s now).maxsize := hb
    _ = s.maxsize := hpm
    _ = (rate_manager_tick rate s now).maxsize := (tick_maxsize rate s now).symm

/-- Along throttling-free steps, a state whose deadline is T with the gate
cleared can only evolve into another such state or into one whose clock has
passed T: the gate is re-set solely by a refill iteration that observes the
deadline expired. -/
theorem quiet_inv (rate T : ℚ) {s s2 : RMState}
    (htr : Relation.ReflTransGen (QuietStep rate) s s2)
    (h0 : (s.retry_after_time = some T ∧ s.event_set = false) ∨ T ≤ s.now) :
    (s2.retry_after_time = some T ∧ s2.event_set = false) ∨ T ≤ s2.now := by
  induction htr with
  | refl => exact h0
  | tail hab hbc ih =>
      rename_i b c
      cases hbc with
      | tick now hn =>
          rcases ih with ⟨hrat, hev⟩ | hle
          · by_cases hT0 : T = 0
            · subst hT0
              left
              have hpc : penalty_check b now = b := penalty_check_zero now hrat
              constructor
              · rw [tick_retry_after_time, hpc]; exact hrat
              · rw [tick_event_set, hpc]; exact hev
            · by_cases hTn : T ≤ now
              · right
                rw [tick_now]
                exact hTn
              · left
                have hpc : penalty_check b now = b :=
                  penalty_check_not_expired now hrat hTn
                constructor
                · rw [tick_retry_after_time, hpc]; exact hrat
                · rw [tick_event_set, hpc]; exact hev
          · right
            rw [tick_now]
            exact le_trans hle hn
      | get_token now hn hev hq =>
          rcases ih with ⟨hrat, hevf⟩ | hle
          · rw [hev] at hevf; cases hevf
          · right
            exact le_trans hle hn

/-- C1 (amended): handling a throttling response at time now0 with parsed
delay d sets the deadline to now0 plus d and clears the gate event, and as
long as no later throttling response overwrites the deadline, any state in
which the gate event is set again has a clock of at least now0 plus d, so a
token acquisition (which requires the gate) can only complete once at least
d seconds have elapsed. -/
theorem C1_penalty_suspension (rate d now0 : ℚ) (s s2 : RMState)
    (htr : QuietReachable rate (handle_429 s now0 d) s2) :
    (handle_429 s now0 d).retry_after_time = some (now0 + d) ∧
    (handle_429 s now0 d).event_set = false ∧
    (s2.event_set = true → now0 + d ≤ s2.now) := by
  refine ⟨rfl, rfl, ?_⟩
  intro hev
  have hinv := quiet_inv rate (now0 + d) htr (Or.inl ⟨rfl, rfl⟩)
  rcases hinv with ⟨hrat, hevf⟩ | hle
  · rw [hev] at hevf; cases hevf
  · exact hle

/-- Witness for C1 (amended) at the state right after the handler runs. -/
theorem C1_penalty_suspension_witness :
    (handle_429 (init_state 2 0) 1 5).retry_after_time = some (1 + 5) ∧
    (handle_429 (init_state 2 0) 1 5).event_set = false ∧
    ((handle_429 (init_state 2 0) 1 5).event_set = true →
      1 + 5 ≤ (handle_429 (init_state 2 0) 1 5).now) :=
  C1_penalty_suspension 1 5 1 (init_state 2 0) (handle_429 (init_state 2 0) 1 5)
    Relation.ReflTransGen.refl

/-- C1 counterexample to the claim as stated: after a throttling response
with parsed delay 100 handled at time 1 (deadline 101), a later throttling
response with parsed delay 1 overwrites the deadline, the refill task
observes it expired at time 3 and re-sets the gate, and a token acquisition
completes at time 3, well before 100 seconds have elapsed: so not every
subsequent token acquisition is suspended until the parsed delay has passed,
and the penalty duration actually applied can be shorter than parsed. -/
theorem C1_deadline_overwrite_counterexample :
    Reachable 1 c1_state_a c1_state_d ∧
    c1_state_a.retry_after_time = some (1 + 100) ∧
    c1_state_d.qsize + 1 = c1_state_a.qsize ∧
    c1_state_d.now < 1 + 100 := by
  have hrat : c1_state_b.retry_after_time = some 3 := by
    show some ((2 : ℚ) + 1) = some 3
    norm_num
  have hpc : penalty_check c1_state_b 3
      = { c1_state_b with event_set := true, retry_after_time := none } :=
    penalty_check_expired 3 hrat (by norm_num) (by norm_num)
  have hrf : refill 1 ({ c1_state_b with event_set := true, retry_after_time := none } : RMState) 3
      = { c1_state_b with event_set := true, retry_after_time := none } := by
    unfold refill
    rw [if_neg]
    rintro ⟨hfull, -⟩
    exact absurd hfull (by decide)
  have hc : c1_state_c = { c1_state_b with event_set := true, retry_after_time := none, last_check_end := 3, now := 3 } := by
    show { refill 1 (penalty_check c1_state_b 3) 3 with last_check_end := (3 : ℚ), now := (3 : ℚ) } = _
    rw [hpc, hrf]
  refine ⟨?_, rfl, ?_, ?_⟩
  · have h1 : Step 1 c1_state_a c1_state_b :=
      Step.handle429 c1_state_a 2 1 (show (1 : ℚ) ≤ 2 by norm_num)
    have h2 : Step 1 c1_state_b c1_state_c :=
      Step.tick c1_state_b 3 (show (2 : ℚ) ≤ 3 by norm_num)
    have hev3 : c1_state_c.event_set = true := by rw [hc]
    have hq3 : 1 ≤ c1_state_c.qsize := by
      have hqs : c1_state_c.qsize = 3 := by rw [hc]; rfl
      omega
    have hn3 : c1_state_c.now ≤ 3 := by rw [hc]
    have h3 : Step 1 c1_state_c c1_state_d := Step.get_token c1_state_c 3 hn3 hev3 hq3
    exact Relation.ReflTransGen.head h1 (Relation.ReflTransGen.head h2
      (Relation.ReflTransGen.single h3))
  · show c1_state_c.qsize - 1 + 1 = 3
    rw [hc]
    rfl
  · show c1_state_c.now < 1 + 100
    rw [hc]
    show (3 : ℚ) < 1 + 100
    norm_num

/-- C2: in every state reachable from a freshly filled bucket, the number of
queued tokens stays between 0 and the queue bound (which never changes), and
the only step that can increase the token count is a refill-task iteration:
the throttling handler leaves the count unchanged and a token acquisition
strictly decreases it. -/
theorem C2_token_bounds (rate t0 : ℚ) (m : Nat) (s : RMState)
    (h : Reachable rate (init_state m t0) s) :
    (s.qsize ≤ s.maxsize ∧ s.maxsize = m) ∧
    (∀ s2, Step rate s s2 → s.qsize < s2.qsize →
      ∃ now, s2 = rate_manager_tick rate s now) := by
  constructor
  · have h2 : Relation.ReflTransGen (Step rate) (init_state m t0) s := h
    clear h
    induction h2 with
    | refl => exact ⟨le_refl m, rfl⟩
    | tail hab hbc ih =>
        rename_i b c
        cases hbc with
        | tick now hn =>
            refine ⟨tick_qsize_le rate b now ih.1, ?_⟩
            rw [tick_maxsize]
            exact ih.2
        | handle429 now d hn => exact ⟨ih.1, ih.2⟩
        | get_token now hn hev hq =>
            refine ⟨?_, ih.2⟩
            calc (consume_token b now).qsize = b.qsize - 1 := rfl
              _ ≤ b.qsize := Nat.sub_le _ _
              _ ≤ b.maxsize := ih.1
  · intro s2 hst hlt
    cases hst with
    | tick now hn => exact ⟨now, rfl⟩
    | handle429 now d hn =>
        exact absurd hlt (lt_irrefl s.qsize)
    | get_token now hn hev hq =>
        exact absurd (show s.qsize < s.qsize - 1 from hlt) (by omega)

/-- Witness for C2 at the initial state of a bucket of capacity 2. -/
theorem C2_token_bounds_witness :
    ((init_state 2 0).qsize ≤ (init_state 2 0).maxsize ∧ (init_state 2 0).maxsize = 2) ∧
    (∀ s2, Step 1 (init_state 2 0) s2 → (init_state 2 0).qsize < s2.qsize →
      ∃ now, s2 = rate_manager_tick 1 (init_state 2 0) now) :=
  C2_token_bounds 1 0 2 (init_state 2 0) Relation.ReflTransGen.refl

end Aiorm
